import Mathlib

/-!
Verification of the pattern matcher in `api_bingo.py` (API Response Bingo).

The program holds a fixed 12-entry table `error_patterns` mapping key names to
expected values, checks an API response mapping against it, and accumulates the
set of matched pattern names across calls.
-/

set_option autoImplicit false

/-- Runtime values of a Python/JSON response: string, integer number, boolean,
`None`, dict (modelled as an association list, first binding wins on lookup),
and list.  Every value occurring in the program is one of these kinds; numbers
are integers throughout the source, so numbers are modelled as `Int`. -/
inductive Val where
  | str (s : String)
  | int (n : Int)
  | bool (b : Bool)
  | none
  | dict (entries : List (String × Val))
  | list (elems : List Val)

/-- A Python dict with string keys, as used for responses and the pattern table. -/
abbrev PyDict := List (String × Val)

/-- Python dict lookup `d[k]` restricted to present keys: the value of the first
binding of `k`, if any. -/
def lookupVal : PyDict → String → Option Val
  | [], _ => Option.none
  | (k, v) :: rest, key => if k = key then some v else lookupVal rest key

/-- Python `k in d` membership test on a dict. -/
def dictContains (d : PyDict) (k : String) : Bool :=
  (lookupVal d k).isSome

mutual

/-- Python `==` on response values.  Booleans compare equal to the numbers 0/1
(`False == 0` and `True == 1` hold in Python); strings, `None`, dicts and lists
compare equal only within their own kind; dicts are equal when they have the
same number of keys and every binding of the left one is matched in the right
one; lists are equal pointwise. -/
def pyEq : Val → Val → Bool
  | Val.str a, Val.str b => a == b
  | Val.int a, Val.int b => a == b
  | Val.bool a, Val.bool b => a == b
  | Val.bool a, Val.int n => (if a then (1 : Int) else 0) == n
  | Val.int n, Val.bool b => n == (if b then (1 : Int) else 0)
  | Val.none, Val.none => true
  | Val.dict d, Val.dict e => d.length == e.length && pyEqEntries d e
  | Val.list xs, Val.list ys => pyEqList xs ys
  | _, _ => false
termination_by structural a _ => a

/-- Every binding of the first dict has a matching binding in the second. -/
def pyEqEntries : List (String × Val) → List (String × Val) → Bool
  | [], _ => true
  | (k, v) :: rest, e =>
    (match lookupVal e k with
     | some w => pyEq v w
     | Option.none => false) && pyEqEntries rest e
termination_by structural l _ => l

/-- Pointwise Python equality of two lists. -/
def pyEqList : List Val → List Val → Bool
  | [], [] => true
  | x :: xs, y :: ys => pyEq x y && pyEqList xs ys
  | _, _ => false
termination_by structural l _ => l

end

/-- The fixed pattern table built in `APIBingo.__init__` (`self.error_patterns`),
in source order.  Every value is an ordinary value, not a Python `type` object. -/
def patternTable : PyDict := [
  ("error", Val.str "message"),
  ("error_message", Val.str "string"),
  ("err", Val.str "msg"),
  ("message", Val.str "error"),
  ("status", Val.str "error"),
  ("result", Val.str "failure"),
  ("success", Val.bool false),
  ("code", Val.int 500),
  ("data", Val.none),
  ("details", Val.str ""),
  ("trace", Val.str "stack"),
  ("fault", Val.dict [("faultstring", Val.str "string")])
]

/-- The per-pattern test of `check_response`'s loop body.  The source first
tests `isinstance(expected_type, type)`; no value of `Val` is a Python `type`
object (and no entry of the table is one), so that branch is never taken and
the `elif` chain reduces to: literal equality `actual_value == expected_type`,
else the nested-fault case when both the expected value and the actual value
are dicts and `"faultstring" in actual_value`. -/
def matchesShape (expected_type actual_value : Val) : Bool :=
  pyEq actual_value expected_type ||
    (match expected_type, actual_value with
     | Val.dict _, Val.dict d => dictContains d "faultstring"
     | _, _ => false)

/-- One iteration of the `for pattern, expected_type in ...` loop of
`check_response`: append the pattern name to `found` when the response has the
key and the value matches the expected shape. -/
def checkStep (response_data : PyDict) (found : List String) (pe : String × Val) :
    List String :=
  match lookupVal response_data pe.1 with
  | some actual_value =>
      if matchesShape pe.2 actual_value then found ++ [pe.1] else found
  | Option.none => found

/-- The loop of `check_response`: fold the per-pattern test over the pattern
table, starting from the empty `found` list. -/
def check_found (patterns response_data : PyDict) : List String :=
  patterns.foldl (checkStep response_data) []

/-- The same loop written with every dict subscript `response_data[pattern]`
returned through `Option` (a key error would be `Option.none`), to state that
`check_response` never raises. -/
def check_found_opt (patterns response_data : PyDict) : Option (List String) :=
  patterns.foldlM
    (fun found pe =>
      if dictContains response_data pe.1 then
        (lookupVal response_data pe.1).bind
          (fun actual_value =>
            some (if matchesShape pe.2 actual_value then found ++ [pe.1] else found))
      else some found)
    []

/-- The matcher's state: the pattern table and the set of pattern names found
so far (`self.found_patterns`, a Python set). -/
structure APIBingo where
  error_patterns : PyDict
  found_patterns : Finset String

/-- `APIBingo()` — fresh matcher: the fixed table and an empty found set. -/
def APIBingo.init : APIBingo :=
  { error_patterns := patternTable, found_patterns := ∅ }

/-- `check_response`: returns the per-call `found` list and the state updated by
`self.found_patterns.update(found)` (set union). -/
def APIBingo.check_response (b : APIBingo) (response_data : PyDict) :
    List String × APIBingo :=
  let found := check_found b.error_patterns response_data
  (found, { b with found_patterns := b.found_patterns ∪ found.toFinset })

/-- `get_score`: number of distinct pattern names found. -/
def APIBingo.get_score (b : APIBingo) : Nat :=
  b.found_patterns.card

/-- `is_bingo`: `get_score() >= 5`. -/
def APIBingo.is_bingo (b : APIBingo) : Bool :=
  decide (5 ≤ b.get_score)

/-- State-passing form of the `get_score` method call: its body only reads
`self`, so the state it leaves behind is the state it was called in. -/
def APIBingo.get_score_call (b : APIBingo) : Nat × APIBingo :=
  (b.get_score, b)

/-- State-passing form of the `is_bingo` method call: its body only reads
`self` (through `get_score`), so it leaves the state unchanged. -/
def APIBingo.is_bingo_call (b : APIBingo) : Bool × APIBingo :=
  (b.is_bingo, b)

/-- Run a sequence of `check_response` calls on a fresh matcher, keeping the
final state. -/
def runChecks (rs : List PyDict) : APIBingo :=
  rs.foldl (fun b r => (b.check_response r).2) APIBingo.init

/-- Run any interleaving of the two read-only queries, keeping the final state
(`true` stands for a `get_score()` call, `false` for an `is_bingo()` call). -/
def applyQueries (qs : List Bool) (b : APIBingo) : APIBingo :=
  qs.foldl (fun s q => if q then s.get_score_call.2 else s.is_bingo_call.2) b

/-- The six sample responses fed by `main`, in order. -/
def sample_responses : List PyDict := [
  [("error", Val.str "Invalid token"), ("code", Val.int 401)],
  [("message", Val.str "Not found"), ("success", Val.bool false)],
  [("err", Val.str "Database timeout"), ("trace", Val.str "java.lang...")],
  [("status", Val.str "error"), ("details", Val.str "Missing parameter")],
  [("fault", Val.dict [("faultstring", Val.str "Rate limit exceeded")])],
  [("result", Val.str "failure"), ("data", Val.none)]
]

/-! ## Basic lemmas about the matching pass -/

/-- The loop body extends `found` on the right: it equals `found` followed by
what the body would produce from an empty accumulator. -/
theorem checkStep_from (r : PyDict) (found : List String) (pe : String × Val) :
    checkStep r found pe = found ++ checkStep r [] pe := by
  unfold checkStep
  cases lookupVal r pe.1 with
  | none => simp
  | some a => by_cases h : matchesShape pe.2 a = true <;> simp [h]

theorem foldl_checkStep_from (r : PyDict) :
    ∀ (ps : PyDict) (acc : List String),
      ps.foldl (checkStep r) acc = acc ++ ps.foldl (checkStep r) [] := by
  intro ps
  induction ps with
  | nil => intro acc; simp
  | cons pe ps ih =>
    intro acc
    simp only [List.foldl_cons]
    rw [ih (checkStep r acc pe), ih (checkStep r [] pe),
      checkStep_from r acc pe, List.append_assoc]

theorem check_found_cons (pe : String × Val) (ps r : PyDict) :
    check_found (pe :: ps) r = checkStep r [] pe ++ check_found ps r := by
  unfold check_found
  simp only [List.foldl_cons]
  rw [foldl_checkStep_from r ps (checkStep r [] pe), checkStep_from r [] pe]

theorem mem_checkStep_nil (r : PyDict) (pe : String × Val) (p : String) :
    p ∈ checkStep r [] pe ↔
      p = pe.1 ∧ ∃ a, lookupVal r pe.1 = some a ∧ matchesShape pe.2 a = true := by
  unfold checkStep
  cases h : lookupVal r pe.1 with
  | none => simp
  | some a =>
    by_cases hm : matchesShape pe.2 a = true
    · simp [hm]
    · simp [hm]

/-- A name is in the result of the matching pass exactly when the table has an
entry for it whose expected shape the response value matches. -/
theorem mem_check_found (ps r : PyDict) (p : String) :
    p ∈ check_found ps r ↔
      ∃ e a, (p, e) ∈ ps ∧ lookupVal r p = some a ∧ matchesShape e a = true := by
  induction ps with
  | nil => simp [check_found]
  | cons pe ps ih =>
    obtain ⟨q, f⟩ := pe
    rw [check_found_cons]
    simp only [List.mem_append, ih, mem_checkStep_nil, List.mem_cons]
    constructor
    · rintro (⟨rfl, a, hl, hm⟩ | ⟨e, a, hmem, hl, hm⟩)
      · exact ⟨f, a, Or.inl rfl, hl, hm⟩
      · exact ⟨e, a, Or.inr hmem, hl, hm⟩
    · rintro ⟨e, a, hmem | hmem, hl, hm⟩
      · rw [Prod.mk.injEq] at hmem
        obtain ⟨rfl, rfl⟩ := hmem
        exact Or.inl ⟨rfl, a, hl, hm⟩
      · exact Or.inr ⟨e, a, hmem, hl, hm⟩

/-- The result of the matching pass is a sublist of the table's names, in
table order. -/
theorem check_found_sublist (ps r : PyDict) :
    List.Sublist (check_found ps r) (ps.map Prod.fst) := by
  induction ps with
  | nil => simp [check_found]
  | cons pe ps ih =>
    obtain ⟨q, f⟩ := pe
    rw [check_found_cons]
    cases h : lookupVal r q with
    | none => simpa [checkStep, h] using ih.cons q
    | some a =>
      by_cases hm : matchesShape f a = true
      · simpa [checkStep, h, hm] using ih.cons₂ q
      · simpa [checkStep, h, hm] using ih.cons q

/-! ## What each expected shape accepts -/

/-- A string-valued table entry matches exactly the equal string: no number,
boolean, `None`, dict or list compares equal to a string under Python `==`. -/
theorem matchesShape_str (s : String) (a : Val) :
    matchesShape (Val.str s) a = true ↔ a = Val.str s := by
  cases a <;> simp [matchesShape, pyEq]

/-- The expected value `False` matches the boolean `False` and the number `0`
(Python `False == 0`), and nothing else. -/
theorem matchesShape_false (a : Val) :
    matchesShape (Val.bool false) a = true ↔
      a = Val.bool false ∨ a = Val.int 0 := by
  cases a <;> simp [matchesShape, pyEq]

/-- The expected value `500` matches exactly the number `500`: neither boolean
compares equal to it, and a string (such as `"500"`) never equals a number. -/
theorem matchesShape_int500 (a : Val) :
    matchesShape (Val.int 500) a = true ↔ a = Val.int 500 := by
  cases a with
  | bool b => cases b <;> simp [matchesShape, pyEq]
  | _ => simp [matchesShape, pyEq]

/-- The expected value `None` matches exactly `None`. -/
theorem matchesShape_none (a : Val) :
    matchesShape Val.none a = true ↔ a = Val.none := by
  cases a <;> simp [matchesShape, pyEq]

/-- If a one-entry dict `{"faultstring": w}` is Python-equal to `d`, then `d`
has the key `"faultstring"`. -/
theorem pyEqEntries_fault (d : PyDict) (w : Val) (hlen : d.length = 1)
    (h : pyEqEntries d [("faultstring", w)] = true) :
    dictContains d "faultstring" = true := by
  match d, hlen with
  | [(k, v)], _ =>
    by_cases hk : ("faultstring" : String) = k
    · simp [dictContains, lookupVal, ← hk]
    · simp [pyEqEntries, lookupVal, hk] at h

/-- A dict-valued table entry matches exactly the dicts that have the key
`"faultstring"`: the literal-equality branch is subsumed by the nested-fault
branch, and a non-dict value matches neither. -/
theorem matchesShape_fault (a : Val) :
    matchesShape (Val.dict [("faultstring", Val.str "string")]) a = true ↔
      ∃ d, a = Val.dict d ∧ dictContains d "faultstring" = true := by
  cases a with
  | dict d =>
    simp only [matchesShape, pyEq, Bool.or_eq_true, Bool.and_eq_true, beq_iff_eq,
      dictContains]
    constructor
    · rintro (⟨hlen, he⟩ | hc)
      · exact ⟨d, rfl, pyEqEntries_fault d _ (by simpa using hlen) he⟩
      · exact ⟨d, rfl, hc⟩
    · rintro ⟨d', hd, hc⟩
      obtain rfl : d = d' := by injection hd
      exact Or.inr hc
  | str s => simp [matchesShape, pyEq]
  | int n => simp [matchesShape, pyEq]
  | bool b => simp [matchesShape, pyEq]
  | none => simp [matchesShape, pyEq]
  | list l => simp [matchesShape, pyEq]

/-- Membership of a single name in the matching pass over the fixed table,
characterized through what its expected shape accepts. -/
theorem check_found_name_iff (p : String) (v : Val) (P : Val → Prop)
    (hp : ∀ e, (p, e) ∈ patternTable ↔ e = v)
    (hv : ∀ a, matchesShape v a = true ↔ P a) (r : PyDict) :
    p ∈ check_found patternTable r ↔ ∃ a, lookupVal r p = some a ∧ P a := by
  rw [mem_check_found]
  constructor
  · rintro ⟨e, a, hmem, hl, hm⟩
    rw [hp] at hmem
    subst hmem
    exact ⟨a, hl, (hv a).mp hm⟩
  · rintro ⟨a, hl, hP⟩
    exact ⟨v, a, (hp v).mpr rfl, hl, (hv a).mpr hP⟩

/-! ## Claim theorems -/

/-- C1 counterexample: the response `{"error": "Invalid token"}` carries a
string at the key `error`, yet `check` does not match the pattern `error`
(the code compares the value to the literal string `"message"`), so the
pattern is not a string-type check. -/
theorem c1_counterexample :
    lookupVal [("error", Val.str "Invalid token")] "error" =
      some (Val.str "Invalid token") ∧
    "error" ∉ check_found patternTable [("error", Val.str "Invalid token")] :=
  ⟨rfl, by decide⟩

/-- C1 (amended): the patterns `error`, `error_message`, `err` and `message`
are literal-equality checks, not string-type checks: they match exactly when
the response value at the key is the string `"message"`, `"string"`, `"msg"`
and `"error"` respectively. -/
theorem c1_error_keys_are_literal_checks (r : PyDict) :
    ("error" ∈ check_found patternTable r ↔
       lookupVal r "error" = some (Val.str "message")) ∧
    ("error_message" ∈ check_found patternTable r ↔
       lookupVal r "error_message" = some (Val.str "string")) ∧
    ("err" ∈ check_found patternTable r ↔
       lookupVal r "err" = some (Val.str "msg")) ∧
    ("message" ∈ check_found patternTable r ↔
       lookupVal r "message" = some (Val.str "error")) := by
  refine ⟨?_, ?_, ?_, ?_⟩
  · simpa using check_found_name_iff "error" (Val.str "message")
      (fun a => a = Val.str "message") (fun e => by simp [patternTable])
      (matchesShape_str _) r
  · simpa using check_found_name_iff "error_message" (Val.str "string")
      (fun a => a = Val.str "string") (fun e => by simp [patternTable])
      (matchesShape_str _) r
  · simpa using check_found_name_iff "err" (Val.str "msg")
      (fun a => a = Val.str "msg") (fun e => by simp [patternTable])
      (matchesShape_str _) r
  · simpa using check_found_name_iff "message" (Val.str "error")
      (fun a => a = Val.str "error") (fun e => by simp [patternTable])
      (matchesShape_str _) r

/-- C2 counterexample: `check({"success": 0})` DOES match the pattern
`success`, because Python `==` identifies `False` with `0`. -/
theorem c2_counterexample :
    "success" ∈ check_found patternTable [("success", Val.int 0)] := by
  decide

/-- C2 (amended): literal matching follows Python equality, which conflates
the boolean and number kinds: `success` matches exactly the values `False`
and `0`; the string/number distinction does hold, so `code` matches exactly
the number `500` (and in particular not the string `"500"`). -/
theorem c2_literal_match_python_equality (r : PyDict) :
    ("success" ∈ check_found patternTable r ↔
       (lookupVal r "success" = some (Val.bool false) ∨
        lookupVal r "success" = some (Val.int 0))) ∧
    ("code" ∈ check_found patternTable r ↔
       lookupVal r "code" = some (Val.int 500)) := by
  constructor
  · rw [check_found_name_iff "success" (Val.bool false)
      (fun a => a = Val.bool false ∨ a = Val.int 0)
      (fun e => by simp [patternTable]) matchesShape_false r]
    constructor
    · rintro ⟨a, hl, rfl | rfl⟩
      · exact Or.inl hl
      · exact Or.inr hl
    · rintro (hl | hl)
      · exact ⟨_, hl, Or.inl rfl⟩
      · exact ⟨_, hl, Or.inr rfl⟩
  · simpa using check_found_name_iff "code" (Val.int 500)
      (fun a => a = Val.int 500) (fun e => by simp [patternTable])
      matchesShape_int500 r

/-- C6: the pattern `fault` matches exactly the responses whose value at the
key `fault` is a dict containing the key `faultstring` (the value at
`faultstring` is not inspected); in particular a dict with `faultstring`
matches, a dict without it does not, and a non-dict value does not. -/
theorem c6_nested_fault :
    (∀ r : PyDict, "fault" ∈ check_found patternTable r ↔
       ∃ d, lookupVal r "fault" = some (Val.dict d) ∧
         dictContains d "faultstring" = true) ∧
    "fault" ∈ check_found patternTable
      [("fault", Val.dict [("faultstring", Val.str "x")])] ∧
    "fault" ∉ check_found patternTable
      [("fault", Val.dict [("other", Val.str "x")])] ∧
    "fault" ∉ check_found patternTable [("fault", Val.str "not a mapping")] := by
  refine ⟨?_, by decide, by decide, by decide⟩
  intro r
  rw [check_found_name_iff "fault" (Val.dict [("faultstring", Val.str "string")])
    (fun a => ∃ d, a = Val.dict d ∧ dictContains d "faultstring" = true)
    (fun e => by simp [patternTable]) matchesShape_fault r]
  constructor
  · rintro ⟨a, hl, d, rfl, hc⟩
    exact ⟨d, hl, hc⟩
  · rintro ⟨d, hl, hc⟩
    exact ⟨Val.dict d, hl, d, rfl, hc⟩

/-- C3 counterexample: feeding the six demo responses into a fresh matcher
does not leave the score at 9 (it leaves it at 5: the four string-typed keys
and the mismatched literals never match). -/
theorem c3_counterexample : (runChecks sample_responses).get_score ≠ 9 := by
  decide

/-- C3 (amended): after the six demo responses the final score is exactly 5,
the found set being success, status, fault, result and data, and `is_bingo`
is true. -/
theorem c3_end_to_end :
    (runChecks sample_responses).get_score = 5 ∧
    (runChecks sample_responses).is_bingo = true ∧
    (runChecks sample_responses).found_patterns =
      {"success", "status", "fault", "result", "data"} := by
  decide

/-- The four responses of the threshold scenario, in order. -/
def threshold_responses : List PyDict := [
  [("error", Val.str "a")],
  [("err", Val.str "b")],
  [("message", Val.str "c")],
  [("error_message", Val.str "d")]
]

/-- C4 counterexample: after the four calls of the threshold scenario the
score is not 4 (none of the four responses matches anything, because those
patterns are literal comparisons against `"message"`, `"msg"`, `"error"`
and `"string"`). -/
theorem c4_counterexample : (runChecks threshold_responses).get_score ≠ 4 := by
  decide

/-- C4 (amended): after the four calls the score is 0 and `is_bingo` is
false; after the further call `check({"status": "error"})` the score is 1
and `is_bingo` is still false. -/
theorem c4_threshold :
    (runChecks threshold_responses).get_score = 0 ∧
    (runChecks threshold_responses).is_bingo = false ∧
    (runChecks (threshold_responses ++ [[("status", Val.str "error")]])).get_score = 1 ∧
    (runChecks (threshold_responses ++ [[("status", Val.str "error")]])).is_bingo = false := by
  decide

/-- The `Option`-guarded loop always succeeds and computes the plain loop. -/
theorem foldlM_check (r : PyDict) :
    ∀ (ps : PyDict) (acc : List String),
      List.foldlM
        (fun found pe =>
          if dictContains r pe.1 then
            (lookupVal r pe.1).bind
              (fun actual_value =>
                some (if matchesShape pe.2 actual_value then found ++ [pe.1] else found))
          else some found)
        acc ps = some (List.foldl (checkStep r) acc ps) := by
  intro ps
  induction ps with
  | nil => intro acc; rfl
  | cons pe ps ih =>
    intro acc
    rw [List.foldlM_cons]
    cases h : lookupVal r pe.1 with
    | none =>
      have hc : dictContains r pe.1 = false := by simp [dictContains, h]
      have hstep : checkStep r acc pe = acc := by simp [checkStep, h]
      rw [List.foldl_cons, hstep, hc]
      simpa using ih acc
    | some a =>
      have hc : dictContains r pe.1 = true := by simp [dictContains, h]
      have hstep : checkStep r acc pe =
          if matchesShape pe.2 a = true then acc ++ [pe.1] else acc := by
        simp [checkStep, h]
      rw [List.foldl_cons, hstep, hc]
      simpa using ih (if matchesShape pe.2 a = true then acc ++ [pe.1] else acc)

/-- C5: `check` is total over arbitrary mapping input: every dict subscript
is guarded, so the `Option`-guarded matching pass always returns a result
(never a key error), for every pattern table and every response; the empty
response yields the empty result. -/
theorem c5_check_total :
    (∀ patterns response_data : PyDict,
       check_found_opt patterns response_data =
         some (check_found patterns response_data)) ∧
    check_found patternTable [] = [] := by
  refine ⟨?_, by decide⟩
  intro ps r
  exact foldlM_check r ps []

/-- C7: re-checking the same response yields the same per-call result, and
the score after the second call equals the score after the first call. -/
theorem c7_idempotent (b : APIBingo) (r : PyDict) :
    ((b.check_response r).2.check_response r).1 = (b.check_response r).1 ∧
    ((b.check_response r).2.check_response r).2.get_score =
      (b.check_response r).2.get_score := by
  constructor
  · rfl
  · simp [APIBingo.check_response, APIBingo.get_score, Finset.union_assoc]

/-! ## Lemmas about sequences of calls -/

theorem foldl_check_error_patterns (rs : List PyDict) :
    ∀ b : APIBingo,
      (List.foldl (fun s r => (s.check_response r).2) b rs).error_patterns =
        b.error_patterns := by
  induction rs with
  | nil => intro b; rfl
  | cons r rs ih => intro b; rw [List.foldl_cons, ih]; rfl

theorem foldl_check_found_mono (rs : List PyDict) :
    ∀ b : APIBingo,
      b.found_patterns ⊆
        (List.foldl (fun s r => (s.check_response r).2) b rs).found_patterns := by
  induction rs with
  | nil => intro b; exact Finset.Subset.refl _
  | cons r rs ih =>
    intro b
    rw [List.foldl_cons]
    refine Finset.Subset.trans ?_ (ih ((b.check_response r).2))
    exact Finset.subset_union_left

theorem check_found_toFinset_subset (r : PyDict) :
    (check_found patternTable r).toFinset ⊆ (patternTable.map Prod.fst).toFinset := by
  intro p hp
  rw [List.mem_toFinset] at hp ⊢
  exact (check_found_sublist patternTable r).subset hp

theorem foldl_check_found_in_names (rs : List PyDict) :
    ∀ b : APIBingo, b.error_patterns = patternTable →
      b.found_patterns ⊆ (patternTable.map Prod.fst).toFinset →
      (List.foldl (fun s r => (s.check_response r).2) b rs).found_patterns ⊆
        (patternTable.map Prod.fst).toFinset := by
  induction rs with
  | nil => intro b _ h; exact h
  | cons r rs ih =>
    intro b hpat h
    rw [List.foldl_cons]
    refine ih _ hpat ?_
    show b.found_patterns ∪ (check_found b.error_patterns r).toFinset ⊆ _
    rw [hpat]
    exact Finset.union_subset h (check_found_toFinset_subset r)

theorem runChecks_append (rs more : List PyDict) :
    runChecks (rs ++ more) =
      List.foldl (fun s r => (s.check_response r).2) (runChecks rs) more := by
  simp [runChecks, List.foldl_append]

/-- C8: after any sequence of checks from a fresh matcher, the found set is a
subset of the 12 catalogue names, so the score is at most 12, and the score
never decreases when further checks are appended. -/
theorem c8_score_invariant (rs more : List PyDict) :
    (runChecks rs).found_patterns ⊆ (patternTable.map Prod.fst).toFinset ∧
    (runChecks rs).get_score ≤ 12 ∧
    (runChecks rs).get_score ≤ (runChecks (rs ++ more)).get_score := by
  have hsub : (runChecks rs).found_patterns ⊆ (patternTable.map Prod.fst).toFinset :=
    foldl_check_found_in_names rs APIBingo.init rfl (Finset.empty_subset _)
  refine ⟨hsub, ?_, ?_⟩
  · have h12 : ((patternTable.map Prod.fst).toFinset).card = 12 := by decide
    exact h12 ▸ Finset.card_le_card hsub
  · rw [runChecks_append]
    exact Finset.card_le_card (foldl_check_found_mono more (runChecks rs))

/-- C9: the list returned by the matching pass has no duplicates, each of its
names is a key of the response, and it is a sublist of the table's names, so
the names come in table order; as a function of the response it is
deterministic by construction. -/
theorem c9_result_wellformed (r : PyDict) :
    (check_found patternTable r).Nodup ∧
    (∀ p ∈ check_found patternTable r, dictContains r p = true) ∧
    List.Sublist (check_found patternTable r) (patternTable.map Prod.fst) := by
  refine ⟨?_, ?_, check_found_sublist patternTable r⟩
  · exact List.Nodup.sublist (check_found_sublist patternTable r) (by decide)
  · intro p hp
    rw [mem_check_found] at hp
    obtain ⟨e, a, _, hl, _⟩ := hp
    simp [dictContains, hl]

theorem applyQueries_id (qs : List Bool) : ∀ b : APIBingo, applyQueries qs b = b := by
  induction qs with
  | nil => intro b; rfl
  | cons q qs ih =>
    intro b
    unfold applyQueries
    rw [List.foldl_cons]
    cases q
    · exact ih b
    · exact ih b

/-- C10: `check_response` leaves the pattern table unchanged and changes the
found set exactly to its union with the returned names; the two queries leave
the whole state unchanged, and so does any interleaving of query calls. -/
theorem c10_frame (b : APIBingo) (r : PyDict) (qs : List Bool) :
    ((b.check_response r).2).error_patterns = b.error_patterns ∧
    ((b.check_response r).2).found_patterns =
      b.found_patterns ∪ ((b.check_response r).1).toFinset ∧
    (b.get_score_call).2 = b ∧
    (b.is_bingo_call).2 = b ∧
    applyQueries qs b = b :=
  ⟨rfl, rfl, rfl, rfl, applyQueries_id qs b⟩
